import Mathlib

/-
Verification of the Oxford Mercury iTC driver
(`qcodes_contrib_drivers/drivers/Oxford/mercury_itc.py`).

The driver is a textual command/response codec over a line transport:
it builds colon-delimited command strings addressed to a hardware UID,
and decodes colon-delimited replies (field at index 6 carries the
payload) into floats or booleans.  Machine floats are modelled as
rationals; Python exceptions (IndexError, KeyError, ValueError) are
modelled by an explicit error type and `Except`.
-/

namespace MercuryITC

/-- Errors raised by the Python code paths we model: list indexing out of
range, dict lookup of a missing key, and `float()` on a bad string. -/
inductive PyError where
  | indexError
  | keyError
  | valueError
deriving DecidableEq, Repr

instance {ε α : Type} [DecidableEq ε] [DecidableEq α] : DecidableEq (Except ε α) :=
  fun x y =>
  match x, y with
  | .error e, .error f =>
    if h : e = f then isTrue (by rw [h]) else isFalse fun c => h (Except.error.inj c)
  | .ok a, .ok b =>
    if h : a = b then isTrue (by rw [h]) else isFalse fun c => h (Except.ok.inj c)
  | .error _, .ok _ => isFalse fun c => Except.noConfusion c
  | .ok _, .error _ => isFalse fun c => Except.noConfusion c

/-- A Python `dict`, modelled as an insertion-ordered association list. -/
abbrev Dict (α β : Type) := List (α × β)

/-- Python `d[k]` lookup: the first (and, with unique keys, only) binding. -/
def dictGet {α β : Type} [DecidableEq α] : Dict α β → α → Option β
  | [], _ => none
  | (k', v) :: rest, k => if k' = k then some v else dictGet rest k

/-- Python `d[k] = v`: update the existing binding in place, else append.
This is the step semantics of building a dict comprehension. -/
def dictInsert {α β : Type} [DecidableEq α] : Dict α β → α → β → Dict α β
  | [], k, v => [(k, v)]
  | (k', v') :: rest, k, v =>
    if k' = k then (k, v) :: rest else (k', v') :: dictInsert rest k v

/-- `_reverse_mapping` (mercury_itc.py:436-441): the dict comprehension
`{value: key for key, value in map.items()}`.  Later entries with the same
value silently overwrite earlier ones; nothing is ever raised. -/
def reverse_mapping {α β : Type} [DecidableEq β] (m : Dict α β) : Dict β α :=
  m.foldl (fun acc kv => dictInsert acc kv.2 kv.1) []

/-- `board_mapping` (mercury_itc.py:42-48). -/
def board_mapping : Dict String String :=
  [("VTI", "MB1.T1"), ("VTI_heater", "MB0"), ("probe", "DB8.T1"),
   ("probe_heater", "DB3"), ("gasflow", "DB4"), ("pressure", "DB5.P1")]

/-- `status_mapping` (mercury_itc.py:49-50). -/
def status_mapping : Dict String Bool := [("ON", true), ("OFF", false)]

/-- `reverse_board_mapping` (mercury_itc.py:51). -/
def reverse_board_mapping : Dict String String := reverse_mapping board_mapping

/-- `reverse_status_mapping` (mercury_itc.py:52). -/
def reverse_status_mapping : Dict Bool String := reverse_mapping status_mapping

/-- Worker for Python `str.split(sep)` with a one-character separator:
the accumulator holds the current group, reversed. -/
def splitAcc (sep : Char) : List Char → List Char → List (List Char)
  | acc, [] => [acc.reverse]
  | acc, c :: cs =>
    if c = sep then acc.reverse :: splitAcc sep [] cs else splitAcc sep (c :: acc) cs

/-- Python `s.split(sep)` for a one-character separator. -/
def pySplit (s : String) (sep : Char) : List String :=
  (splitAcc sep [] s.data).map String.mk

/-- Python `s[:-n]` for `n ≥ 1`: drop the last `n` characters (empty
result when the string is shorter than `n`). -/
def pyDropRight (s : String) (n : Nat) : String :=
  String.mk (s.data.take (s.data.length - n))

/-- Numeric value of a digit character. -/
def digitVal (c : Char) : Nat := c.toNat - 48

/-- Consume a run of leading digits: accumulated value, digit count, rest. -/
def takeDigits : Nat → Nat → List Char → Nat × Nat × List Char
  | v, n, [] => (v, n, [])
  | v, n, c :: cs =>
    if c.isDigit then takeDigits (v * 10 + digitVal c) (n + 1) cs else (v, n, c :: cs)

/-- Optional leading sign of a numeric literal. -/
def readSign : List Char → Int × List Char
  | '+' :: r => (1, r)
  | '-' :: r => (-1, r)
  | r => (1, r)

/-- Exponent digits (after `e`/`E`) of a float literal. -/
def parseExpTail (l : List Char) : Option Int :=
  let sr := readSign l
  let vnr := takeDigits 0 0 sr.2
  if vnr.2.1 = 0 then none
  else if vnr.2.2.isEmpty then some (sr.1 * vnr.1) else none

/-- Optional exponent part of a float literal (must consume the rest). -/
def parseExp : List Char → Option Int
  | [] => some 0
  | 'e' :: r => parseExpTail r
  | 'E' :: r => parseExpTail r
  | _ => none

/-- Value of mantissa `m` with `fc` fractional digits and exponent `e`:
the exact rational `m * 10 ^ (e - fc)`. -/
def applyExp (m : Int) (fc : Nat) (e : Int) : ℚ :=
  if (fc : Int) ≤ e then mkRat (m * 10 ^ (e - fc).toNat) 1
  else mkRat m (10 ^ (fc - e).toNat)

/-- Python `float(s)` on the decimal/exponent forms the protocol uses:
optional surrounding whitespace, optional sign, digits with an optional
fractional part (at least one digit overall), optional `e`/`E` exponent.
Returns `none` where Python raises ValueError. -/
def pyFloat (s : String) : Option ℚ :=
  let cs := ((s.data.dropWhile Char.isWhitespace).reverse.dropWhile Char.isWhitespace).reverse
  let sc := readSign cs
  let ivr := takeDigits 0 0 sc.2
  match ivr.2.2 with
  | '.' :: r =>
    let fvr := takeDigits 0 0 r
    if ivr.2.1 + fvr.2.1 = 0 then none
    else (parseExp fvr.2.2).map fun e =>
      applyExp (sc.1 * ((ivr.1 * 10 ^ fvr.2.1 + fvr.1 : Nat) : Int)) fvr.2.1 e
  | rest =>
    if ivr.2.1 = 0 then none
    else (parseExp rest).map fun e => applyExp (sc.1 * (ivr.1 : Int)) 0 e

/-- Lift the result of `float(...)` into the error monad: Python raises
ValueError on an unparseable string. -/
def floatToResult (o : Option ℚ) : Except PyError ℚ :=
  match o with
  | none => .error .valueError
  | some q => .ok q

/-- Read command of `_get_temperature` (mercury_itc.py:161). -/
def get_temperature_command (uid : String) : String :=
  "READ:DEV:" ++ uid ++ ":TEMP:SIG:TEMP"

/-- Read command of `_get_temperature_setpoint` (mercury_itc.py:179). -/
def get_temperature_setpoint_command (uid : String) : String :=
  "READ:DEV:" ++ uid ++ ":TEMP:LOOP:TSET"

/-- Read command of `_get_temperature_ramp_rate` (mercury_itc.py:197). -/
def get_temperature_ramp_rate_command (uid : String) : String :=
  "READ:DEV:" ++ uid ++ ":TEMP:LOOP:RSET"

/-- Read command of `_get_ramp_mode` (mercury_itc.py:215). -/
def get_ramp_mode_command (uid : String) : String :=
  "READ:DEV:" ++ uid ++ ":TEMP:LOOP:RENA"

/-- Read command of `_get_pid_mode` (mercury_itc.py:234). -/
def get_pid_mode_command (uid : String) : String :=
  "READ:DEV:" ++ uid ++ ":TEMP:LOOP:ENAB"

/-- Read command of `_get_heater_output` (mercury_itc.py:253). -/
def get_heater_output_command (uid : String) : String :=
  "READ:DEV:" ++ uid ++ ":TEMP:LOOP:HSET"

/-- Read command of `_get_pressure_mode` (mercury_itc.py:271). -/
def get_pressure_mode_command (uid : String) : String :=
  "READ:DEV:" ++ uid ++ ":PRES:LOOP:ENAB"

/-- Read command of `_get_flow` (mercury_itc.py:290). -/
def get_flow_command (uid : String) : String :=
  "READ:DEV:" ++ uid ++ ":PRES:LOOP:FSET"

/-- Read command of `_get_pressure` (mercury_itc.py:308). -/
def get_pressure_command (uid : String) : String :=
  "READ:DEV:" ++ uid ++ ":PRES:SIG:PRES"

/-- Read command of `_get_pressure_setpoint` (mercury_itc.py:325). -/
def get_pressure_setpoint_command (uid : String) : String :=
  "READ:DEV:" ++ uid ++ ":PRES:LOOP:PRST"

/-- The spec's contract `encode_read(uid, attribute_path) ->
"READ:DEV:{uid}:{attribute_path}"`, stated as written in the spec, to be
compared with the per-getter command strings the code builds. -/
def encode_read (uid attributePath : String) : String :=
  "READ:DEV:" ++ uid ++ (":" ++ attributePath)

/-- Reply processing of `_get_temperature` (mercury_itc.py:165-170):
split on `:`, take field 6 (IndexError if absent), look the uid up in
`reverse_board_mapping` for the info log line (KeyError if absent), then
`float(payload[:-1])`. -/
def get_temperature (uid reply : String) : Except PyError ℚ :=
  match (pySplit reply ':').get? 6 with
  | none => .error .indexError
  | some payload =>
    match dictGet reverse_board_mapping uid with
    | none => .error .keyError
    | some _ => floatToResult (pyFloat (pyDropRight payload 1))

/-- Reply processing of `_get_temperature_setpoint` (mercury_itc.py:183-188):
field 6, log lookup, `float(payload[:-1])`. -/
def get_temperature_setpoint (uid reply : String) : Except PyError ℚ :=
  match (pySplit reply ':').get? 6 with
  | none => .error .indexError
  | some payload =>
    match dictGet reverse_board_mapping uid with
    | none => .error .keyError
    | some _ => floatToResult (pyFloat (pyDropRight payload 1))

/-- Reply processing of `_get_temperature_ramp_rate` (mercury_itc.py:201-206):
field 6, log lookup, `float(payload[:-3])`. -/
def get_temperature_ramp_rate (uid reply : String) : Except PyError ℚ :=
  match (pySplit reply ':').get? 6 with
  | none => .error .indexError
  | some payload =>
    match dictGet reverse_board_mapping uid with
    | none => .error .keyError
    | some _ => floatToResult (pyFloat (pyDropRight payload 3))

/-- Reply processing of `_get_ramp_mode` (mercury_itc.py:219-225):
field 6, log lookup, then `status_mapping[payload]` (KeyError on a token
other than "ON"/"OFF"). -/
def get_ramp_mode (uid reply : String) : Except PyError Bool :=
  match (pySplit reply ':').get? 6 with
  | none => .error .indexError
  | some tok =>
    match dictGet reverse_board_mapping uid with
    | none => .error .keyError
    | some _ =>
      match dictGet status_mapping tok with
      | none => .error .keyError
      | some b => .ok b

/-- Reply processing of `_get_pid_mode` (mercury_itc.py:238-244). -/
def get_pid_mode (uid reply : String) : Except PyError Bool :=
  match (pySplit reply ':').get? 6 with
  | none => .error .indexError
  | some tok =>
    match dictGet reverse_board_mapping uid with
    | none => .error .keyError
    | some _ =>
      match dictGet status_mapping tok with
      | none => .error .keyError
      | some b => .ok b

/-- Reply processing of `_get_heater_output` (mercury_itc.py:257-262):
field 6, log lookup, `float(payload)` with no suffix strip. -/
def get_heater_output (uid reply : String) : Except PyError ℚ :=
  match (pySplit reply ':').get? 6 with
  | none => .error .indexError
  | some payload =>
    match dictGet reverse_board_mapping uid with
    | none => .error .keyError
    | some _ => floatToResult (pyFloat payload)

/-- Reply processing of `_get_pressure_mode` (mercury_itc.py:275-281). -/
def get_pressure_mode (uid reply : String) : Except PyError Bool :=
  match (pySplit reply ':').get? 6 with
  | none => .error .indexError
  | some tok =>
    match dictGet reverse_board_mapping uid with
    | none => .error .keyError
    | some _ =>
      match dictGet status_mapping tok with
      | none => .error .keyError
      | some b => .ok b

/-- Reply processing of `_get_flow` (mercury_itc.py:294-299):
field 6, log lookup, `float(payload)` with no strip. -/
def get_flow (uid reply : String) : Except PyError ℚ :=
  match (pySplit reply ':').get? 6 with
  | none => .error .indexError
  | some payload =>
    match dictGet reverse_board_mapping uid with
    | none => .error .keyError
    | some _ => floatToResult (pyFloat payload)

/-- Reply processing of `_get_pressure` (mercury_itc.py:312-316):
field 6 then `float(payload[:-2])`; its log line does not use the
reverse mapping, so there is no uid lookup. -/
def get_pressure (uid reply : String) : Except PyError ℚ :=
  match (pySplit reply ':').get? 6 with
  | none => .error .indexError
  | some payload => floatToResult (pyFloat (pyDropRight payload 2))

/-- Reply processing of `_get_pressure_setpoint` (mercury_itc.py:329-333):
field 6 then `float(payload[:-2])`; no uid lookup in its log line. -/
def get_pressure_setpoint (uid reply : String) : Except PyError ℚ :=
  match (pySplit reply ':').get? 6 with
  | none => .error .indexError
  | some payload => floatToResult (pyFloat (pyDropRight payload 2))

/-- Character of a decimal digit. -/
def digitChar (n : Nat) : Char := Char.ofNat (48 + n % 10)

/-- Decimal digits of `n`, most significant first, by fuelled recursion. -/
def natDigits : Nat → Nat → List Char
  | 0, _ => []
  | fuel + 1, n =>
    if n < 10 then [digitChar n] else natDigits fuel (n / 10) ++ [digitChar (n % 10)]

/-- Decimal digit string of `n` as a character list. -/
def natChars (n : Nat) : List Char := natDigits (n + 1) n

/-- Left-pad a digit list with zeros to width `k`. -/
def padZeros (k : Nat) (ds : List Char) : List Char :=
  List.replicate (k - ds.length) '0' ++ ds

/-- Round the exact rational `n / d` (with `d > 0`) to the nearest
integer, ties to even — the rounding Python's fixed-point `format`
applies to the scaled value. -/
def intRoundHalfEven (n : Int) (d : Nat) : Int :=
  let f := n.ediv (d : Int)
  let r := n.emod (d : Int)
  if 2 * r < (d : Int) then f
  else if (d : Int) < 2 * r then f + 1
  else if f % 2 = 0 then f else f + 1

/-- Digits of the scaled integer `z` (value times `10 ^ prec`) laid out
with a decimal point before the last `prec` digits. -/
def renderFixedChars (prec : Nat) (z : Int) : List Char :=
  if z < 0 then
    '-' :: (natChars (z.natAbs / 10 ^ prec) ++
      '.' :: padZeros prec (natChars (z.natAbs % 10 ^ prec)))
  else
    natChars (z.natAbs / 10 ^ prec) ++
      '.' :: padZeros prec (natChars (z.natAbs % 10 ^ prec))

/-- Python `f"{q:0.3f}"`-style fixed-point formatting with `prec`
fractional digits: scale by `10 ^ prec` (exactly, on the rational),
round half-to-even, render. -/
def formatFixed (prec : Nat) (q : ℚ) : String :=
  String.mk (renderFixedChars prec (intRoundHalfEven (q.num * 10 ^ prec) q.den))

/-- Number of fractional digits of a formatted character list: defined
only when splitting on `.` yields exactly an integer part and a
fractional part. -/
def fracDigitCountChars (l : List Char) : Option Nat :=
  if (splitAcc '.' [] l).length = 2 then ((splitAcc '.' [] l).get? 1).map List.length
  else none

/-- Number of fractional digits of a formatted string. -/
def fracDigitCount (s : String) : Option Nat := fracDigitCountChars s.data

/-- Write command of `_set_temperature_setpoint` (mercury_itc.py:341):
`f"SET:DEV:{uid}:TEMP:LOOP:TSET:{v:0.3f}"`. -/
def set_temperature_setpoint_command (uid : String) (v : ℚ) : String :=
  "SET:DEV:" ++ uid ++ ":TEMP:LOOP:TSET:" ++ formatFixed 3 v

/-- Write command of `_set_temperature_ramp_rate` (mercury_itc.py:353):
`f"SET:DEV:{uid}:TEMP:LOOP:RSET:{v:0.3f}"`. -/
def set_temperature_ramp_rate_command (uid : String) (v : ℚ) : String :=
  "SET:DEV:" ++ uid ++ ":TEMP:LOOP:RSET:" ++ formatFixed 3 v

/-- Write command of `_set_ramp_mode` (mercury_itc.py:366), after the
boolean has been translated to its token. -/
def set_ramp_mode_command (uid tok : String) : String :=
  "SET:DEV:" ++ uid ++ ":TEMP:LOOP:RENA:" ++ tok

/-- Write command of `_set_pid_mode` (mercury_itc.py:379). -/
def set_pid_mode_command (uid tok : String) : String :=
  "SET:DEV:" ++ uid ++ ":TEMP:LOOP:ENAB:" ++ tok

/-- Write command of `_set_heater_output` (mercury_itc.py:391):
`f"SET:DEV:{uid}:TEMP:LOOP:HSET:{v:0.2f}"`. -/
def set_heater_output_command (uid : String) (v : ℚ) : String :=
  "SET:DEV:" ++ uid ++ ":TEMP:LOOP:HSET:" ++ formatFixed 2 v

/-- Write command of `_set_pressure_mode` (mercury_itc.py:404). -/
def set_pressure_mode_command (uid tok : String) : String :=
  "SET:DEV:" ++ uid ++ ":PRES:LOOP:ENAB:" ++ tok

/-- Write command of `_set_flow` (mercury_itc.py:416):
`f"SET:DEV:{uid}:PRES:LOOP:FSET:{v:0.2f}"`. -/
def set_flow_command (uid : String) (v : ℚ) : String :=
  "SET:DEV:" ++ uid ++ ":PRES:LOOP:FSET:" ++ formatFixed 2 v

/-- Write command of `_set_pressure` (mercury_itc.py:428):
`f"SET:DEV:{uid}:PRES:LOOP:PRST:{v:0.2f}"`. -/
def set_pressure_command (uid : String) (v : ℚ) : String :=
  "SET:DEV:" ++ uid ++ ":PRES:LOOP:PRST:" ++ formatFixed 2 v

/-- `_set_temperature_setpoint` (mercury_itc.py:337-346): builds the
command, queries the transport, and logs.  The transport's reply is
received but never decoded or validated; the only possible failure is
the KeyError of the info-log lookup `reverse_board_mapping[uid]`.  On
success the observable effect is the command string sent (the Python
method returns None). -/
def set_temperature_setpoint (uid : String) (v : ℚ) (reply : String) :
    Except PyError String :=
  match dictGet reverse_board_mapping uid with
  | none => .error .keyError
  | some _ => .ok (set_temperature_setpoint_command uid v)

/-- `_set_temperature_ramp_rate` (mercury_itc.py:349-358); reply unused. -/
def set_temperature_ramp_rate (uid : String) (v : ℚ) (reply : String) :
    Except PyError String :=
  match dictGet reverse_board_mapping uid with
  | none => .error .keyError
  | some _ => .ok (set_temperature_ramp_rate_command uid v)

/-- `_set_ramp_mode` (mercury_itc.py:361-371): the boolean is translated
through `reverse_status_mapping` before the command is built; reply unused. -/
def set_ramp_mode (uid : String) (mode : Bool) (reply : String) :
    Except PyError String :=
  match dictGet reverse_status_mapping mode with
  | none => .error .keyError
  | some tok =>
    match dictGet reverse_board_mapping uid with
    | none => .error .keyError
    | some _ => .ok (set_ramp_mode_command uid tok)

/-- `_set_pid_mode` (mercury_itc.py:374-384); reply unused. -/
def set_pid_mode (uid : String) (mode : Bool) (reply : String) :
    Except PyError String :=
  match dictGet reverse_status_mapping mode with
  | none => .error .keyError
  | some tok =>
    match dictGet reverse_board_mapping uid with
    | none => .error .keyError
    | some _ => .ok (set_pid_mode_command uid tok)

/-- `_set_heater_output` (mercury_itc.py:387-396); reply unused. -/
def set_heater_output (uid : String) (v : ℚ) (reply : String) :
    Except PyError String :=
  match dictGet reverse_board_mapping uid with
  | none => .error .keyError
  | some _ => .ok (set_heater_output_command uid v)

/-- `_set_pressure_mode` (mercury_itc.py:399-409); reply unused. -/
def set_pressure_mode (uid : String) (mode : Bool) (reply : String) :
    Except PyError String :=
  match dictGet reverse_status_mapping mode with
  | none => .error .keyError
  | some tok =>
    match dictGet reverse_board_mapping uid with
    | none => .error .keyError
    | some _ => .ok (set_pressure_mode_command uid tok)

/-- `_set_flow` (mercury_itc.py:412-421); reply unused. -/
def set_flow (uid : String) (v : ℚ) (reply : String) :
    Except PyError String :=
  match dictGet reverse_board_mapping uid with
  | none => .error .keyError
  | some _ => .ok (set_flow_command uid v)

/-- `_set_pressure` (mercury_itc.py:424-433): its info-log line (432)
does not use the reverse mapping, so no lookup can fail.  Reply unused. -/
def set_pressure (uid : String) (v : ℚ) (reply : String) :
    Except PyError String :=
  .ok (set_pressure_command uid v)

/-- Splitting a separator-free chunk yields a single group. -/
theorem splitAcc_no_sep (sep : Char) :
    ∀ (l acc : List Char), sep ∉ l → splitAcc sep acc l = [acc.reverse ++ l] := by
  intro l
  induction l with
  | nil => intro acc _; simp [splitAcc]
  | cons c cs ih =>
    intro acc h
    have hc : ¬(c = sep) := fun e => h (e ▸ List.mem_cons_self c cs)
    simp only [splitAcc]
    rw [if_neg hc, ih (c :: acc) (fun m => h (List.mem_cons_of_mem _ m))]
    simp

/-- Splitting past a separator-free chunk followed by the separator
emits the chunk as one group and continues on the tail. -/
theorem splitAcc_header (sep : Char) :
    ∀ (A acc B : List Char), sep ∉ A →
      splitAcc sep acc (A ++ sep :: B) = (acc.reverse ++ A) :: splitAcc sep [] B := by
  intro A
  induction A with
  | nil => intro acc B _; simp [splitAcc]
  | cons c A' ih =>
    intro acc B h
    have hc : ¬(c = sep) := fun e => h (e ▸ List.mem_cons_self _ _)
    simp only [List.cons_append, splitAcc]
    rw [if_neg hc]
    simp only [List.append_eq]
    rw [ih (c :: acc) B (fun m => h (List.mem_cons_of_mem _ m))]
    simp

theorem digitChar_ne_dot (n : Nat) : digitChar n ≠ '.' := by
  unfold digitChar
  have h : n % 10 < 10 := Nat.mod_lt _ (by omega)
  generalize hm : n % 10 = m
  rw [hm] at h
  interval_cases m <;> decide

theorem dot_not_mem_natDigits : ∀ fuel n, '.' ∉ natDigits fuel n := by
  intro fuel
  induction fuel with
  | zero => intro n; simp [natDigits]
  | succ fuel ih =>
    intro n
    simp only [natDigits]
    by_cases h : n < 10
    · rw [if_pos h]
      simp only [List.mem_singleton]
      exact (digitChar_ne_dot n).symm
    · rw [if_neg h]
      simp only [List.mem_append, List.mem_singleton]
      rintro (m | e)
      · exact ih _ m
      · exact (digitChar_ne_dot _).symm e

theorem dot_not_mem_natChars (n : Nat) : '.' ∉ natChars n :=
  dot_not_mem_natDigits _ n

theorem dot_not_mem_padZeros (k : Nat) (ds : List Char) (h : '.' ∉ ds) :
    '.' ∉ padZeros k ds := by
  unfold padZeros
  simp only [List.mem_append, List.mem_replicate]
  rintro (⟨_, e⟩ | m)
  · exact absurd e (by decide)
  · exact h m

theorem natDigits_length_le :
    ∀ (fuel n k : Nat), n < fuel → 0 < k → n < 10 ^ k →
      (natDigits fuel n).length ≤ k := by
  intro fuel
  induction fuel with
  | zero => intro n k h; omega
  | succ fuel ih =>
    intro n k hn hk hnk
    simp only [natDigits]
    by_cases h10 : n < 10
    · rw [if_pos h10]; simpa using hk
    · rw [if_neg h10]
      rw [List.length_append]
      cases k with
      | zero => omega
      | succ k' =>
        have hk' : 0 < k' := by
          rcases Nat.eq_zero_or_pos k' with rfl | hpos
          · norm_num at hnk; omega
          · exact hpos
        have hdiv : n / 10 < 10 ^ k' := by
          rw [pow_succ] at hnk
          exact Nat.div_lt_of_lt_mul (by omega)
        have hfuel : n / 10 < fuel := by
          have h1 : n / 10 < n := Nat.div_lt_self (by omega) (by omega)
          omega
        have := ih (n / 10) k' hfuel hk' hdiv
        simp only [List.length_singleton]
        omega

theorem natChars_length_le (n k : Nat) (hk : 0 < k) (h : n < 10 ^ k) :
    (natChars n).length ≤ k :=
  natDigits_length_le (n + 1) n k (Nat.lt_succ_self n) hk h

theorem padZeros_length (k : Nat) (ds : List Char) (h : ds.length ≤ k) :
    (padZeros k ds).length = k := by
  unfold padZeros
  rw [List.length_append, List.length_replicate]
  omega

/-- Fixed-point rendering of any scaled integer has exactly `prec`
fractional digits (for positive `prec`). -/
theorem fracDigitCountChars_renderFixed (prec : Nat) (hp : 0 < prec) (z : Int) :
    fracDigitCountChars (renderFixedChars prec z) = some prec := by
  have hfracmem : '.' ∉ padZeros prec (natChars (z.natAbs % 10 ^ prec)) :=
    dot_not_mem_padZeros _ _ (dot_not_mem_natChars _)
  have hlen : (padZeros prec (natChars (z.natAbs % 10 ^ prec))).length = prec :=
    padZeros_length _ _
      (natChars_length_le _ _ hp (Nat.mod_lt _ (pow_pos (by omega) prec)))
  unfold renderFixedChars
  by_cases hz : z < 0
  · rw [if_pos hz]
    have hA : '.' ∉ '-' :: natChars (z.natAbs / 10 ^ prec) := by
      simp only [List.mem_cons]
      rintro (e | m)
      · exact absurd e (by decide)
      · exact dot_not_mem_natChars _ m
    rw [← List.cons_append]
    unfold fracDigitCountChars
    rw [splitAcc_header '.' _ _ _ hA, splitAcc_no_sep '.' _ _ hfracmem]
    simp [hlen]
  · rw [if_neg hz]
    unfold fracDigitCountChars
    rw [splitAcc_header '.' _ _ _ (dot_not_mem_natChars _),
      splitAcc_no_sep '.' _ _ hfracmem]
    simp [hlen]

/-- For any colon-free payload, the temperature getter strips exactly the
last character of field 6 before parsing. -/
theorem get_temperature_strip (payload : String) (h : ':' ∉ payload.data) :
    get_temperature "MB1.T1" ("STAT:DEV:MB1.T1:TEMP:SIG:TEMP:" ++ payload) =
      floatToResult (pyFloat (pyDropRight payload 1)) := by
  obtain ⟨pl⟩ := payload
  have key : pySplit ("STAT:DEV:MB1.T1:TEMP:SIG:TEMP:" ++ String.mk pl) ':' =
      ["STAT", "DEV", "MB1.T1", "TEMP", "SIG", "TEMP", String.mk pl] := by
    have h1 : splitAcc ':' [] ("STAT:DEV:MB1.T1:TEMP:SIG:TEMP:" ++ String.mk pl).data =
        "STAT".data :: "DEV".data :: "MB1.T1".data :: "TEMP".data :: "SIG".data ::
          "TEMP".data :: splitAcc ':' [] pl := rfl
    unfold pySplit
    rw [h1, splitAcc_no_sep ':' pl [] h]
    rfl
  simp only [get_temperature, key]
  rfl

/-- For any colon-free payload, the ramp-rate getter strips exactly the
last three characters of field 6 before parsing. -/
theorem get_temperature_ramp_rate_strip (payload : String) (h : ':' ∉ payload.data) :
    get_temperature_ramp_rate "MB1.T1" ("STAT:DEV:MB1.T1:TEMP:LOOP:RSET:" ++ payload) =
      floatToResult (pyFloat (pyDropRight payload 3)) := by
  obtain ⟨pl⟩ := payload
  have key : pySplit ("STAT:DEV:MB1.T1:TEMP:LOOP:RSET:" ++ String.mk pl) ':' =
      ["STAT", "DEV", "MB1.T1", "TEMP", "LOOP", "RSET", String.mk pl] := by
    have h1 : splitAcc ':' [] ("STAT:DEV:MB1.T1:TEMP:LOOP:RSET:" ++ String.mk pl).data =
        "STAT".data :: "DEV".data :: "MB1.T1".data :: "TEMP".data :: "LOOP".data ::
          "RSET".data :: splitAcc ':' [] pl := rfl
    unfold pySplit
    rw [h1, splitAcc_no_sep ':' pl [] h]
    rfl
  simp only [get_temperature_ramp_rate, key]
  rfl

/-- For any colon-free payload, the pressure getter strips exactly the
last two characters of field 6 before parsing. -/
theorem get_pressure_strip (payload : String) (h : ':' ∉ payload.data) :
    get_pressure "DB5.P1" ("STAT:DEV:DB5.P1:PRES:SIG:PRES:" ++ payload) =
      floatToResult (pyFloat (pyDropRight payload 2)) := by
  obtain ⟨pl⟩ := payload
  have key : pySplit ("STAT:DEV:DB5.P1:PRES:SIG:PRES:" ++ String.mk pl) ':' =
      ["STAT", "DEV", "DB5.P1", "PRES", "SIG", "PRES", String.mk pl] := by
    have h1 : splitAcc ':' [] ("STAT:DEV:DB5.P1:PRES:SIG:PRES:" ++ String.mk pl).data =
        "STAT".data :: "DEV".data :: "DB5.P1".data :: "PRES".data :: "SIG".data ::
          "PRES".data :: splitAcc ':' [] pl := rfl
    unfold pySplit
    rw [h1, splitAcc_no_sep ':' pl [] h]
    rfl
  simp only [get_pressure, key]
  rfl

/-- For any colon-free payload, the pressure-setpoint getter strips
exactly the last two characters of field 6 before parsing. -/
theorem get_pressure_setpoint_strip (payload : String) (h : ':' ∉ payload.data) :
    get_pressure_setpoint "DB5.P1" ("STAT:DEV:DB5.P1:PRES:LOOP:PRST:" ++ payload) =
      floatToResult (pyFloat (pyDropRight payload 2)) := by
  obtain ⟨pl⟩ := payload
  have key : pySplit ("STAT:DEV:DB5.P1:PRES:LOOP:PRST:" ++ String.mk pl) ':' =
      ["STAT", "DEV", "DB5.P1", "PRES", "LOOP", "PRST", String.mk pl] := by
    have h1 : splitAcc ':' [] ("STAT:DEV:DB5.P1:PRES:LOOP:PRST:" ++ String.mk pl).data =
        "STAT".data :: "DEV".data :: "DB5.P1".data :: "PRES".data :: "LOOP".data ::
          "PRST".data :: splitAcc ':' [] pl := rfl
    unfold pySplit
    rw [h1, splitAcc_no_sep ':' pl [] h]
    rfl
  simp only [get_pressure_setpoint, key]
  rfl

/-- Claim C1, counterexample: constructing the reverse mapping from an
input in which two distinct channel names ("VTI" and "probe") share the
hardware address "MB1.T1" does not raise any configuration error: the
dict comprehension succeeds and silently keeps only the later name. -/
theorem reverse_mapping_duplicate_silent :
    reverse_mapping [("VTI", "MB1.T1"), ("probe", "MB1.T1")] = [("MB1.T1", "probe")] := by
  decide

/-- Claim C1, amended: when two distinct channel names share the same
hardware address, construction of the reverse mapping succeeds (no error
is raised) and maps the duplicated address to the later of the two names. -/
theorem reverse_mapping_last_wins : ∀ a b addr : String, a ≠ b →
    dictGet (reverse_mapping [(a, addr), (b, addr)]) addr = some b := by
  intro a b addr hab
  simp [reverse_mapping, dictInsert, dictGet, List.foldl_cons, List.foldl_nil]

/-- Witness for the amended C1 at the concrete duplicate configuration. -/
theorem reverse_mapping_last_wins_witness :
    ("VTI" : String) ≠ "probe"
    ∧ dictGet (reverse_mapping [("VTI", "MB1.T1"), ("probe", "MB1.T1")]) "MB1.T1"
      = some "probe" :=
  ⟨by decide, reverse_mapping_last_wins "VTI" "probe" "MB1.T1" (by decide)⟩

/-- Claim C2, counterexample: the ramp-rate getter does not strip a
two-character suffix.  On the reply whose field 6 is "1.234K/" it does
not return `float("1.234")`; it strips three characters (`[:-3]`,
mercury_itc.py:206) and returns 1.23. -/
theorem ramp_rate_strip_counterexample :
    get_temperature_ramp_rate "MB1.T1" "STAT:DEV:MB1.T1:TEMP:LOOP:RSET:1.234K/"
      ≠ floatToResult (pyFloat (pyDropRight "1.234K/" 2)) := by
  decide

/-- Claim C2, amended: the suffix length is fixed per attribute path and
not inferred from the string, but the lengths are one character for the
temperature reading and three characters for the ramp rate: for every
colon-free payload the temperature getter parses `payload[:-1]` and the
ramp-rate getter parses `payload[:-3]`; "4.213K" decodes to 4.213 and
"1.234K/m" decodes to 1.234. -/
theorem suffix_strip_lengths : ∀ payload : String, ':' ∉ payload.data →
    get_temperature "MB1.T1" ("STAT:DEV:MB1.T1:TEMP:SIG:TEMP:" ++ payload)
      = floatToResult (pyFloat (pyDropRight payload 1))
    ∧ get_temperature_ramp_rate "MB1.T1" ("STAT:DEV:MB1.T1:TEMP:LOOP:RSET:" ++ payload)
      = floatToResult (pyFloat (pyDropRight payload 3))
    ∧ get_temperature "MB1.T1" "STAT:DEV:MB1.T1:TEMP:SIG:TEMP:4.213K"
      = .ok (mkRat 4213 1000)
    ∧ get_temperature_ramp_rate "MB1.T1" "STAT:DEV:MB1.T1:TEMP:LOOP:RSET:1.234K/m"
      = .ok (mkRat 617 500) := by
  intro payload h
  exact ⟨get_temperature_strip payload h, get_temperature_ramp_rate_strip payload h,
    by decide, by decide⟩

/-- Witness for the amended C2 at the concrete payload "4.213K". -/
theorem suffix_strip_lengths_witness :
    (':' ∉ "4.213K".data)
    ∧ get_temperature "MB1.T1" ("STAT:DEV:MB1.T1:TEMP:SIG:TEMP:" ++ "4.213K")
      = floatToResult (pyFloat (pyDropRight "4.213K" 1)) :=
  ⟨by decide, (suffix_strip_lengths "4.213K" (by decide)).1⟩

/-- Claim C3: a reply that splits on ':' into fewer than 7 fields makes
the temperature getter raise IndexError (modelled as `.error .indexError`)
— it never returns an `.ok` default. -/
theorem short_reply_index_error : ∀ uid raw : String,
    (pySplit raw ':').length < 7 →
    get_temperature uid raw = .error .indexError := by
  intro uid raw h
  have hn : (pySplit raw ':').get? 6 = none := by
    rw [List.get?_eq_none]
    omega
  simp only [get_temperature, hn]

/-- Witness for C3 at the malformed reply "A:B:C" (3 fields). -/
theorem short_reply_index_error_witness :
    (pySplit "A:B:C" ':').length < 7
    ∧ get_temperature "MB1.T1" "A:B:C" = .error .indexError :=
  ⟨by decide, short_reply_index_error "MB1.T1" "A:B:C" (by decide)⟩

/-- Claim C4: decoding a boolean attribute reply: a field-6 token other
than "ON"/"OFF" raises the lookup KeyError (unrecognized token); "ON"
decodes to true and "OFF" to false. -/
theorem boolean_token_decode : ∀ raw tok : String,
    (pySplit raw ':').get? 6 = some tok →
    ((tok ≠ "ON" ∧ tok ≠ "OFF") → get_ramp_mode "MB1.T1" raw = .error .keyError)
    ∧ (tok = "ON" → get_ramp_mode "MB1.T1" raw = .ok true)
    ∧ (tok = "OFF" → get_ramp_mode "MB1.T1" raw = .ok false) := by
  intro raw tok h
  have key : get_ramp_mode "MB1.T1" raw =
      (match dictGet status_mapping tok with
       | none => Except.error PyError.keyError
       | some b => Except.ok b) := by
    simp only [get_ramp_mode, h,
      show dictGet reverse_board_mapping "MB1.T1" = some "VTI" from rfl]
  refine ⟨?_, ?_, ?_⟩
  · rintro ⟨h1, h2⟩
    have hs : dictGet status_mapping tok = none := by
      show (if "ON" = tok then some true else if "OFF" = tok then some false
        else (none : Option Bool)) = none
      rw [if_neg (fun e => h1 e.symm), if_neg (fun e => h2 e.symm)]
    rw [key, hs]
  · rintro rfl
    rw [key]
    rfl
  · rintro rfl
    rw [key]
    rfl

/-- Witness for C4 at the unknown token "MAYBE". -/
theorem boolean_token_decode_witness :
    (pySplit "STAT:DEV:MB1.T1:TEMP:LOOP:RENA:MAYBE" ':').get? 6 = some "MAYBE"
    ∧ get_ramp_mode "MB1.T1" "STAT:DEV:MB1.T1:TEMP:LOOP:RENA:MAYBE"
      = .error .keyError :=
  ⟨by decide,
    (boolean_token_decode "STAT:DEV:MB1.T1:TEMP:LOOP:RENA:MAYBE" "MAYBE"
      (by decide)).1 ⟨by decide, by decide⟩⟩

/-- Claim C5: write commands format their numeric payload with a fixed
fractional digit count per field class — 3 decimals for temperature
set-points and ramp rates, 2 for heater output, flow and pressure
set-points — regardless of the value's native precision: 4 at 3-decimal
precision renders as "4.000", and the temperature set-point command for
4.2 on MB1.T1 is "SET:DEV:MB1.T1:TEMP:LOOP:TSET:4.200". -/
theorem write_command_precision : ∀ v : ℚ,
    fracDigitCount (formatFixed 3 v) = some 3
    ∧ fracDigitCount (formatFixed 2 v) = some 2
    ∧ (∀ uid : String,
        set_temperature_setpoint_command uid v
          = "SET:DEV:" ++ uid ++ ":TEMP:LOOP:TSET:" ++ formatFixed 3 v
        ∧ set_temperature_ramp_rate_command uid v
          = "SET:DEV:" ++ uid ++ ":TEMP:LOOP:RSET:" ++ formatFixed 3 v
        ∧ set_heater_output_command uid v
          = "SET:DEV:" ++ uid ++ ":TEMP:LOOP:HSET:" ++ formatFixed 2 v
        ∧ set_flow_command uid v
          = "SET:DEV:" ++ uid ++ ":PRES:LOOP:FSET:" ++ formatFixed 2 v
        ∧ set_pressure_command uid v
          = "SET:DEV:" ++ uid ++ ":PRES:LOOP:PRST:" ++ formatFixed 2 v)
    ∧ formatFixed 3 (mkRat 4 1) = "4.000"
    ∧ set_temperature_setpoint_command "MB1.T1" (mkRat 21 5)
      = "SET:DEV:MB1.T1:TEMP:LOOP:TSET:4.200" := by
  intro v
  refine ⟨?_, ?_, fun uid => ⟨rfl, rfl, rfl, rfl, rfl⟩, by decide, by decide⟩
  · exact fracDigitCountChars_renderFixed 3 (by omega) _
  · exact fracDigitCountChars_renderFixed 2 (by omega) _

/-- Claim C6: every getter's read command is exactly
`"READ:DEV:" ++ uid ++ ":" ++ path` for its attribute path, with nothing
before or after — i.e. it agrees with the spec's `encode_read`. -/
theorem read_command_encoding : ∀ uid : String,
    get_temperature_command uid = encode_read uid "TEMP:SIG:TEMP"
    ∧ get_temperature_setpoint_command uid = encode_read uid "TEMP:LOOP:TSET"
    ∧ get_temperature_ramp_rate_command uid = encode_read uid "TEMP:LOOP:RSET"
    ∧ get_ramp_mode_command uid = encode_read uid "TEMP:LOOP:RENA"
    ∧ get_pid_mode_command uid = encode_read uid "TEMP:LOOP:ENAB"
    ∧ get_heater_output_command uid = encode_read uid "TEMP:LOOP:HSET"
    ∧ get_pressure_mode_command uid = encode_read uid "PRES:LOOP:ENAB"
    ∧ get_flow_command uid = encode_read uid "PRES:LOOP:FSET"
    ∧ get_pressure_command uid = encode_read uid "PRES:SIG:PRES"
    ∧ get_pressure_setpoint_command uid = encode_read uid "PRES:LOOP:PRST" :=
  fun _ => ⟨rfl, rfl, rfl, rfl, rfl, rfl, rfl, rfl, rfl, rfl⟩

/-- Claim C7: the reply "STAT:DEV:MB1.T1:TEMP:SIG:TEMP:4.213K" decodes
through the temperature getter to the float 4.213. -/
theorem temperature_example_decode :
    get_temperature "MB1.T1" "STAT:DEV:MB1.T1:TEMP:SIG:TEMP:4.213K"
      = .ok (mkRat 4213 1000) := by
  decide

/-- Claim C8: the channel mapping and the boolean status mapping each
round-trip: a channel name's hardware address looks back up to the name,
and a boolean's token looks back up to the boolean. -/
theorem mapping_round_trip :
    (∀ c hw : String, dictGet board_mapping c = some hw →
      dictGet reverse_board_mapping hw = some c)
    ∧ (∀ (b : Bool) (tok : String), dictGet reverse_status_mapping b = some tok →
      dictGet status_mapping tok = some b) := by
  constructor
  · intro c hw h
    have hb : dictGet board_mapping c =
        (if "VTI" = c then some "MB1.T1" else if "VTI_heater" = c then some "MB0"
         else if "probe" = c then some "DB8.T1" else if "probe_heater" = c then some "DB3"
         else if "gasflow" = c then some "DB4" else if "pressure" = c then some "DB5.P1"
         else none) := rfl
    rw [hb] at h
    split_ifs at h with h1 h2 h3 h4 h5 h6
    all_goals first
      | exact Option.noConfusion h
      | (injection h with h'; subst_vars; decide)
  · intro b tok h
    cases b
    · have h2 : some "OFF" = some tok := h
      injection h2 with h3
      subst h3
      decide
    · have h2 : some "ON" = some tok := h
      injection h2 with h3
      subst h3
      decide

/-- Witness for C8 at channel "VTI" and boolean true. -/
theorem mapping_round_trip_witness :
    dictGet board_mapping "VTI" = some "MB1.T1"
    ∧ dictGet reverse_board_mapping "MB1.T1" = some "VTI"
    ∧ dictGet status_mapping "ON" = some true :=
  ⟨by decide, mapping_round_trip.1 "VTI" "MB1.T1" (by decide),
    mapping_round_trip.2 true "ON" (by decide)⟩

/-- Claim C9: every setter completes with `.ok` (the Python method
returns None) for every reply string the transport hands back — the
reply is never decoded or validated, so no error can derive from it; the
only precondition is that the uid is in the reverse board mapping, which
the info-log line looks up. -/
theorem setters_ignore_reply :
    ∀ uid name : String, dictGet reverse_board_mapping uid = some name →
    ∀ (v : ℚ) (b : Bool) (reply : String),
      set_temperature_setpoint uid v reply = .ok (set_temperature_setpoint_command uid v)
      ∧ set_temperature_ramp_rate uid v reply
        = .ok (set_temperature_ramp_rate_command uid v)
      ∧ set_ramp_mode uid b reply = .ok (set_ramp_mode_command uid (cond b "ON" "OFF"))
      ∧ set_pid_mode uid b reply = .ok (set_pid_mode_command uid (cond b "ON" "OFF"))
      ∧ set_heater_output uid v reply = .ok (set_heater_output_command uid v)
      ∧ set_pressure_mode uid b reply
        = .ok (set_pressure_mode_command uid (cond b "ON" "OFF"))
      ∧ set_flow uid v reply = .ok (set_flow_command uid v)
      ∧ set_pressure uid v reply = .ok (set_pressure_command uid v) := by
  intro uid name h v b reply
  refine ⟨?_, ?_, ?_, ?_, ?_, ?_, ?_, rfl⟩
  · simp only [set_temperature_setpoint, h]
  · simp only [set_temperature_ramp_rate, h]
  · cases b <;>
      simp only [set_ramp_mode, h, Bool.cond_false, Bool.cond_true,
        show dictGet reverse_status_mapping false = some "OFF" from rfl,
        show dictGet reverse_status_mapping true = some "ON" from rfl]
  · cases b <;>
      simp only [set_pid_mode, h, Bool.cond_false, Bool.cond_true,
        show dictGet reverse_status_mapping false = some "OFF" from rfl,
        show dictGet reverse_status_mapping true = some "ON" from rfl]
  · simp only [set_heater_output, h]
  · cases b <;>
      simp only [set_pressure_mode, h, Bool.cond_false, Bool.cond_true,
        show dictGet reverse_status_mapping false = some "OFF" from rfl,
        show dictGet reverse_status_mapping true = some "ON" from rfl]
  · simp only [set_flow, h]

/-- Witness for C9 at uid "MB1.T1" with a garbage reply. -/
theorem setters_ignore_reply_witness :
    dictGet reverse_board_mapping "MB1.T1" = some "VTI"
    ∧ set_temperature_setpoint "MB1.T1" (mkRat 0 1) "NOT:A:VALID:REPLY"
      = .ok (set_temperature_setpoint_command "MB1.T1" (mkRat 0 1)) :=
  ⟨by decide,
    (setters_ignore_reply "MB1.T1" "VTI" (by decide) (mkRat 0 1) true
      "NOT:A:VALID:REPLY").1⟩

/-- Claim C10: the suffix strip is unconditional: even when field 6 is a
bare number with no unit suffix, the temperature getter still drops its
last character and the pressure getters still drop the last two before
parsing, so "4.213" decodes to 4.21 (temperature) and 4.2 (pressure) —
a different numeric value, not a rejection and not 4.213. -/
theorem unconditional_suffix_strip : ∀ payload : String, ':' ∉ payload.data →
    get_temperature "MB1.T1" ("STAT:DEV:MB1.T1:TEMP:SIG:TEMP:" ++ payload)
      = floatToResult (pyFloat (pyDropRight payload 1))
    ∧ get_pressure "DB5.P1" ("STAT:DEV:DB5.P1:PRES:SIG:PRES:" ++ payload)
      = floatToResult (pyFloat (pyDropRight payload 2))
    ∧ get_pressure_setpoint "DB5.P1" ("STAT:DEV:DB5.P1:PRES:LOOP:PRST:" ++ payload)
      = floatToResult (pyFloat (pyDropRight payload 2))
    ∧ get_temperature "MB1.T1" "STAT:DEV:MB1.T1:TEMP:SIG:TEMP:4.213"
      = .ok (mkRat 421 100)
    ∧ get_pressure "DB5.P1" "STAT:DEV:DB5.P1:PRES:SIG:PRES:4.213"
      = .ok (mkRat 21 5)
    ∧ mkRat 421 100 ≠ mkRat 4213 1000 := by
  intro payload h
  exact ⟨get_temperature_strip payload h, get_pressure_strip payload h,
    get_pressure_setpoint_strip payload h, by decide, by decide, by decide⟩

/-- Witness for C10 at the bare payload "4.213". -/
theorem unconditional_suffix_strip_witness :
    (':' ∉ "4.213".data)
    ∧ get_pressure "DB5.P1" ("STAT:DEV:DB5.P1:PRES:SIG:PRES:" ++ "4.213")
      = floatToResult (pyFloat (pyDropRight "4.213" 2)) :=
  ⟨by decide, (unconditional_suffix_strip "4.213" (by decide)).2.1⟩

end MercuryITC
